import Mathlib

/-!
Shallow embedding of the two provider-adapter scripts of the
Your-PaL-MoE repository (`scripts/example_community.py` and
`scripts/pollinations.py`) and proofs about the adapter contract.

Each script reads one JSON request from stdin, dispatches to a provider
operation, and prints one JSON result envelope.  We model Python's JSON
value domain, the handful of dynamic operations the scripts perform on
it (`dict.get`, list indexing, `str.split()`, `min`, `+`, f-strings,
`urllib.parse.quote`), the exception discipline (the scripts' inner
`except requests.exceptions.RequestException` versus the top-level
`except Exception`), and the two `main` entry points.  Network effects
are passed in explicitly: each outbound call's outcome (a response, or
a transport error message) is a parameter of the embedded function.
-/

namespace PalMoE

/-- Python values that can arise from `json.loads` (and the derived values
the scripts build from them).  Numbers are modelled as exact rationals:
every JSON numeric literal is a decimal, hence a rational; none of the
scripts' observable behaviour distinguishes int from float. -/
inductive Json where
  | null
  | bool (b : Bool)
  | num (q : Rat)
  | str (s : String)
  | arr (elems : List Json)
  | obj (members : List (String × Json))

/-- Python exceptions, split by the only distinction the scripts make:
`requests.exceptions.RequestException` (and subclasses, caught by the
inner handlers in `pollinations.py`) versus everything else (caught only
at top level).  `str(e)` is the carried message. -/
inductive PyExc where
  | requestExc (msg : String)
  | otherExc (msg : String)
  deriving DecidableEq, Repr

/-- Python `str(e)` on an exception: the carried message. -/
def PyExc.msg : PyExc → String
  | .requestExc m => m
  | .otherExc m => m

/-- Python `d.get(key, default)`.  Defined (and total) on dicts; on any
other value Python raises `AttributeError` (lists, strings, numbers,
`None` and booleans have no `get` method).  A dict produced by
`json.loads` has pairwise-distinct keys, so first-match lookup agrees
with Python's dict lookup. -/
def Json.get (j : Json) (key : String) (default : Json) : Except PyExc Json :=
  match j with
  | .obj members => .ok ((members.lookup key).getD default)
  | _ => .error (.otherExc "object has no attribute 'get'")

/-- Pure observation used only in theorem statements: the value bound to
`key` when `j` is a dict that has it. -/
def Json.field (j : Json) (key : String) : Option Json :=
  match j with
  | .obj members => members.lookup key
  | _ => none

/-- Python subscription `x[i]` for a non-negative index, as the scripts
use it (`data.get('choices', [{}])[0]`).  On a list it raises
`IndexError` past the end; on a string it yields the one-character
string; on any other value it raises `TypeError`.  (A dict subscripted
with an integer raises `KeyError`, since `json.loads` dicts only have
string keys; that is the non-`requests` error the `TypeError` arm also
stands for — both propagate identically.) -/
def pyIndex (j : Json) (i : Nat) : Except PyExc Json :=
  match j with
  | .arr xs =>
    match xs.get? i with
    | some x => .ok x
    | none => .error (.otherExc "list index out of range")
  | .str s =>
    match s.toList.get? i with
    | some c => .ok (.str (String.mk [c]))
    | none => .error (.otherExc "string index out of range")
  | _ => .error (.otherExc "object is not subscriptable")

/-- Numeric view: Python treats `bool` as an `int` subtype, so `True`
counts as 1 and `False` as 0 in arithmetic and comparisons. -/
def Json.toRatNum : Json → Option Rat
  | .num q => some q
  | .bool b => some (if b then 1 else 0)
  | _ => none

/-- Python `min(a, b)`: defined on two numbers (bools included) or two
strings; mixed or unordered operand types raise `TypeError`.  Returns
the first argument on ties, as `min` does. -/
def pyMin (a b : Json) : Except PyExc Json :=
  match a.toRatNum, b.toRatNum with
  | some x, some y => .ok (if x ≤ y then a else b)
  | _, _ =>
    match a, b with
    | .str x, .str y => .ok (.str (if x ≤ y then x else y))
    | _, _ => .error (.otherExc "TypeError in min")

/-- Python `a + b` as the scripts can reach it: number plus number
(bools coerce), string concatenation; anything else raises
`TypeError`. -/
def pyAdd (a b : Json) : Except PyExc Json :=
  match a.toRatNum, b.toRatNum with
  | some x, some y => .ok (.num (x + y))
  | _, _ =>
    match a, b with
    | .str x, .str y => .ok (.str (x ++ y))
    | _, _ => .error (.otherExc "unsupported operand types for +")

/-- The whitespace set of Python's no-argument `str.split()` (ASCII
part; the scripts' behaviour on exotic Unicode spaces is not at issue
in any claim). -/
def isPySpace (c : Char) : Bool :=
  c = ' ' || c = '\t' || c = '\n' || c = '\r' || c = '\x0b' || c = '\x0c'

/-- Worker for `pySplit`: `acc` holds the current token's characters in
reverse. -/
def pySplitAux : List Char → List Char → List String
  | [], acc => if acc.isEmpty then [] else [String.mk acc.reverse]
  | c :: cs, acc =>
    if isPySpace c then
      if acc.isEmpty then pySplitAux cs [] else String.mk acc.reverse :: pySplitAux cs []
    else pySplitAux cs (c :: acc)

/-- Python `s.split()` with no arguments: split on runs of whitespace,
discarding empty tokens. -/
def pySplit (s : String) : List String :=
  pySplitAux s.toList []

/-- `prompt.split()` as the scripts call it on a JSON-derived value:
only strings have `.split`; any other value raises `AttributeError`. -/
def pySplitJson : Json → Except PyExc (List String)
  | .str s => .ok (pySplit s)
  | _ => .error (.otherExc "object has no attribute 'split'")

/-- Python `str(x)` as used by the f-strings.  Only the string case is
ever observable in a Success envelope: a non-string `prompt` makes the
very next step (`prompt.split()`) raise, so the rendering of the other
cases is never printed; they are given best-effort renderings. -/
def pyStr : Json → String
  | .str s => s
  | .bool true => "True"
  | .bool false => "False"
  | .null => "None"
  | .num q => toString q
  | .arr _ => "[...]"
  | .obj _ => "{...}"

/-- UTF-8 encoding of one scalar value, byte values as naturals. -/
def utf8Bytes (c : Char) : List Nat :=
  let n := c.toNat
  if n < 0x80 then [n]
  else if n < 0x800 then [0xC0 + n / 64, 0x80 + n % 64]
  else if n < 0x10000 then [0xE0 + n / 4096, 0x80 + n / 64 % 64, 0x80 + n % 64]
  else [0xF0 + n / 262144, 0x80 + n / 4096 % 64, 0x80 + n / 64 % 64, 0x80 + n % 64]

/-- Bytes `urllib.parse.quote` leaves unescaped with the default
`safe='/'` (which `requests.utils.quote` uses): ASCII letters, digits,
`_`, `.`, `-`, `~`, and the safe character `/`. -/
def isQuoteSafe (b : Nat) : Bool :=
  (65 ≤ b && b ≤ 90) || (97 ≤ b && b ≤ 122) || (48 ≤ b && b ≤ 57) ||
    b = 95 || b = 46 || b = 45 || b = 126 || b = 47

/-- Upper-case hexadecimal digit, as `quote`'s `%XX` escapes use. -/
def hexDigit (n : Nat) : Char :=
  if n < 10 then Char.ofNat (48 + n) else Char.ofNat (55 + n)

/-- Percent-encoding of one byte. -/
def quoteByte (b : Nat) : List Char :=
  if isQuoteSafe b then [Char.ofNat b]
  else ['%', hexDigit (b / 16), hexDigit (b % 16)]

/-- `requests.utils.quote(s)` on a string: UTF-8 encode, then
percent-escape every byte outside the safe set. -/
def pyQuote (s : String) : String :=
  String.mk (((s.toList.map utf8Bytes).flatten.map quoteByte).flatten)

/-- `response.raise_for_status()`: raises `requests.exceptions.HTTPError`
(a `RequestException`) exactly for status codes 400–599. -/
def httpRaise (status : Nat) : Except PyExc Unit :=
  if 400 ≤ status ∧ status < 600 then
    .error (.requestExc (toString status ++ " Error"))
  else
    .ok ()

/-- Outcome of one HTTP exchange: the status code and the result of
`response.json()` (whose decode failure is a
`requests.exceptions.JSONDecodeError`, a `RequestException`). -/
structure HttpResponse where
  status : Nat
  body : Except String Json

/-- The network environment of one `pollinations.py` invocation: the
outcome of the (at most one) POST to the text endpoint, and of the (at
most one) HEAD to the image URL.  `.error m` is a transport-level
`RequestException` with message `m`; for the HEAD call the payload is
just the status code. -/
structure NetEnv where
  textResp : Except String HttpResponse
  imageHead : Except String Nat

/-- The process-level outcome: the one JSON document printed to stdout
and the exit code. -/
structure RunResult where
  output : Json
  exitCode : Nat

/-! ## `scripts/example_community.py` -/

/-- Body of the `try` in `call_community_api`: the mock response dict
literal, with the fields evaluated in Python's left-to-right order
(the f-string text, then `len(prompt.split())`, then
`min(max_tokens, 20)`, then their sum; the two re-evaluations of
`prompt.split()` and `min` in `total_tokens` are pure and repeat the
same values, so they are computed once here). -/
def call_community_api_body (prompt model max_tokens : Json) : Except PyExc Json := do
  let text := "Community API response to: " ++ pyStr prompt
  let ptoks ← pySplitJson prompt
  let comp ← pyMin max_tokens (.num 20)
  let total ← pyAdd (.num (ptoks.length : Rat)) comp
  pure (.obj [("text", .str text), ("model", model),
    ("usage", .obj [("prompt_tokens", .num (ptoks.length : Rat)),
      ("completion_tokens", comp),
      ("total_tokens", total)])])

/-- `call_community_api(prompt, model, max_tokens)`: the mock provider
call.  Its `except Exception` clause re-raises any failure as a generic
`Exception` wrapping the cause message. -/
def call_community_api (prompt model max_tokens : Json) : Except PyExc Json :=
  match call_community_api_body prompt model max_tokens with
  | .error e => .error (.otherExc ("Community API request failed: " ++ e.msg))
  | r => r

/-- Body of the `try` in `example_community.py`'s `main`: parse stdin,
extract the parameters with their defaults, call the provider, build
the Success envelope.  `input` is the outcome of
`json.loads(sys.stdin.read())`. -/
def ex_main_body (input : Except PyExc Json) : Except PyExc Json := do
  let request_data ← input
  let prompt ← request_data.get "prompt" (.str "")
  let model ← request_data.get "model" (.str "default")
  let max_tokens ← request_data.get "max_tokens" (.num 100)
  let response ← call_community_api prompt model max_tokens
  pure (.obj [("success", .bool true), ("data", response),
    ("cost", .num (0.001 : Rat)), ("provider", .str "example_community")])

/-- `main()` of `example_community.py`: on any exception, print the
Failure envelope and exit 1; otherwise print the Success envelope and
exit 0. -/
def ex_main (input : Except PyExc Json) : RunResult :=
  match ex_main_body input with
  | .ok result => ⟨result, 0⟩
  | .error e =>
    ⟨.obj [("success", .bool false), ("error", .str e.msg),
      ("provider", .str "example_community")], 1⟩

/-! ## `scripts/pollinations.py` -/

/-- Body of the `try` in `complete_text`: POST to the text endpoint,
`raise_for_status`, decode the JSON body, and build the normalized
payload.  Field evaluation order follows the Python dict literal: the
`choices`/`message`/`content` chain first, then the eagerly-evaluated
default usage dict (`prompt.split()` runs even when the provider did
report usage), then the `usage` lookup. -/
def complete_text_body (prompt model max_tokens : Json)
    (net : Except String HttpResponse) : Except PyExc Json := do
  let resp ← match net with
    | .ok r => pure r
    | .error m => Except.error (PyExc.requestExc m)
  let _ ← httpRaise resp.status
  let data ← match resp.body with
    | .ok d => pure d
    | .error m => Except.error (PyExc.requestExc m)
  let choices ← data.get "choices" (.arr [.obj []])
  let c0 ← pyIndex choices 0
  let message ← c0.get "message" (.obj [])
  let content ← message.get "content" (.str "")
  let ptoks ← pySplitJson prompt
  let total ← pyAdd (.num (ptoks.length : Rat)) max_tokens
  let usage ← data.get "usage"
    (.obj [("prompt_tokens", .num (ptoks.length : Rat)),
      ("completion_tokens", max_tokens),
      ("total_tokens", total)])
  pure (.obj [("text", content), ("model", model), ("usage", usage)])

/-- `complete_text(prompt, model, max_tokens)`: the inner
`except requests.exceptions.RequestException` re-raises only
transport/HTTP/decode failures as a generic `Exception` with the
wrapped message; other errors (e.g. `IndexError`) propagate as they
are. -/
def complete_text (prompt model max_tokens : Json)
    (net : Except String HttpResponse) : Except PyExc Json :=
  match complete_text_body prompt model max_tokens net with
  | .error (.requestExc m) =>
    .error (.otherExc ("Pollinations text API request failed: " ++ m))
  | r => r

/-- `generate_image(prompt, model)`: build the image URL embedding the
quoted prompt (outside the `try`; a non-string prompt raises
`TypeError` there), HEAD it, `raise_for_status`, and return the
descriptor.  Only `RequestException`s are wrapped.  The `model`
parameter is accepted and ignored, as in the source. -/
def generate_image (prompt model : Json) (net : Except String Nat) : Except PyExc Json := do
  let _ := model
  let q ← match prompt with
    | .str s => Except.ok (pyQuote s)
    | _ => Except.error (PyExc.otherExc "quote_from_bytes() expected bytes")
  let image_url := "https://image.pollinations.ai/prompt/" ++ q
  let attempt : Except PyExc Json := do
    let status ← match net with
      | .ok s => pure s
      | .error m => Except.error (PyExc.requestExc m)
    let _ ← httpRaise status
    pure (.obj [("url", .str image_url), ("prompt", prompt),
      ("model", .str "pollinations-image"), ("size", .str "1024x1024")])
  match attempt with
  | .error (.requestExc m) =>
    .error (.otherExc ("Pollinations image API request failed: " ++ m))
  | r => r

/-- Python `task_type == 'image_generation'`: true exactly when the
value is that string (no other JSON-derived value compares equal to a
`str`). -/
def isImageGeneration : Json → Bool
  | .str s => s = "image_generation"
  | _ => false

/-- Body of the `try` in `pollinations.py`'s `main`: parse stdin,
extract the parameters with their defaults, dispatch on `task_type`,
build the Success envelope. -/
def pol_main_body (input : Except PyExc Json) (net : NetEnv) : Except PyExc Json := do
  let request_data ← input
  let prompt ← request_data.get "prompt" (.str "")
  let model ← request_data.get "model" (.str "openai")
  let max_tokens ← request_data.get "max_tokens" (.num 100)
  let task_type ← request_data.get "task_type" (.str "chat_completion")
  let response ←
    if isImageGeneration task_type then
      generate_image prompt model net.imageHead
    else
      complete_text prompt model max_tokens net.textResp
  pure (.obj [("success", .bool true), ("data", response),
    ("cost", .num 0), ("provider", .str "pollinations")])

/-- `main()` of `pollinations.py`: on any exception, print the Failure
envelope and exit 1; otherwise print the Success envelope and exit
0. -/
def pol_main (input : Except PyExc Json) (net : NetEnv) : RunResult :=
  match pol_main_body input net with
  | .ok result => ⟨result, 0⟩
  | .error e =>
    ⟨.obj [("success", .bool false), ("error", .str e.msg),
      ("provider", .str "pollinations")], 1⟩

/-! ## Helper lemmas -/

/-- Every successful run of `example_community.py`'s `try` body yields
exactly the Success envelope shape: the four fields in source order,
with the fixed cost and provider. -/
theorem ex_main_body_ok_shape (input : Except PyExc Json) (r : Json)
    (h : ex_main_body input = .ok r) :
    ∃ d, r = .obj [("success", .bool true), ("data", d),
      ("cost", .num (0.001 : Rat)), ("provider", .str "example_community")] := by
  unfold ex_main_body at h
  simp only [bind, Except.bind, pure, Except.pure] at h
  repeat' split at h
  all_goals first
    | exact Except.noConfusion h
    | exact ⟨_, (Except.ok.inj h).symm⟩

/-- Every successful run of `pollinations.py`'s `try` body yields
exactly the Success envelope shape, with cost 0 and provider
`pollinations`. -/
theorem pol_main_body_ok_shape (input : Except PyExc Json) (net : NetEnv) (r : Json)
    (h : pol_main_body input net = .ok r) :
    ∃ d, r = .obj [("success", .bool true), ("data", d),
      ("cost", .num 0), ("provider", .str "pollinations")] := by
  unfold pol_main_body at h
  simp only [bind, Except.bind, pure, Except.pure] at h
  repeat' split at h
  all_goals first
    | exact Except.noConfusion h
    | exact ⟨_, (Except.ok.inj h).symm⟩

/-- Reducing a bind whose left side is a known success. -/
theorem exBindOk {α β : Type} (a : α) (f : α → Except PyExc β) :
    Except.bind (.ok a) f = f a := rfl

/-- A bind that just wraps the value is a map. -/
theorem bindPureMap (x : Except PyExc Json) (f : Json → Json) :
    Except.bind x (fun v => Except.ok (f v)) = Except.map f x := by
  cases x <;> rfl

/-- Full evaluation of the mock provider call on a string prompt and a
numeric `max_tokens`: it always succeeds, echoing the prompt and
estimating usage with the completion count `min(max_tokens, 20)`. -/
theorem call_community_api_run (p : String) (model : Json) (t : Rat) :
    call_community_api (.str p) model (.num t) =
      .ok (.obj [("text", .str ("Community API response to: " ++ p)), ("model", model),
        ("usage", .obj [("prompt_tokens", .num ((pySplit p).length : Rat)),
          ("completion_tokens", .num (min t 20)),
          ("total_tokens", .num (((pySplit p).length : Rat) + min t 20))])]) := by
  rcases le_or_lt t 20 with h | h
  · simp [call_community_api, call_community_api_body, pySplitJson, pyMin, pyAdd, Json.toRatNum,
      pyStr, bind, Except.bind, pure, Except.pure, if_pos h, min_eq_left h]
  · simp [call_community_api, call_community_api_body, pySplitJson, pyMin, pyAdd, Json.toRatNum,
      pyStr, bind, Except.bind, pure, Except.pure, if_neg (not_le.mpr h), min_eq_right h.le]

/-- The `RequestException` wrapper of `complete_text` does not alter
successful results: the call succeeds with `d` iff its `try` body
does. -/
theorem complete_text_ok_iff (prompt model mt : Json) (net : Except String HttpResponse)
    (d : Json) :
    complete_text prompt model mt net = .ok d ↔
      complete_text_body prompt model mt net = .ok d := by
  unfold complete_text
  rcases hb : complete_text_body prompt model mt net with e | r
  · cases e <;> simp
  · simp

/-- Every successful text completion yields the three-field payload
`text`/`model`/`usage` in source order. -/
theorem complete_text_body_shape (prompt model mt : Json) (net : Except String HttpResponse)
    (d : Json) (h : complete_text_body prompt model mt net = .ok d) :
    ∃ c u, d = .obj [("text", c), ("model", model), ("usage", u)] := by
  unfold complete_text_body at h
  simp only [bind, Except.bind, pure, Except.pure] at h
  repeat' split at h
  all_goals first
    | exact Except.noConfusion h
    | (cases Except.ok.inj h; exact ⟨_, _, rfl⟩)

/-- When the provider response carries no `usage` key, a successful
text completion carries the estimated usage object: whitespace token
count, the requested `max_tokens`, and their sum. -/
theorem complete_text_body_usage_est (p : String) (model : Json) (t : Rat)
    (status : Nat) (body : List (String × Json)) (d : Json)
    (h : complete_text_body (.str p) model (.num t) (.ok ⟨status, .ok (.obj body)⟩) = .ok d)
    (husage : body.lookup "usage" = none) :
    d.field "usage" = some (.obj [("prompt_tokens", .num ((pySplit p).length : Rat)),
      ("completion_tokens", .num t),
      ("total_tokens", .num (((pySplit p).length : Rat) + t))]) := by
  unfold complete_text_body at h
  simp only [bind, Except.bind, pure, Except.pure, Json.get, pySplitJson, pyAdd,
    Json.toRatNum, husage, Option.getD] at h
  repeat' split at h
  all_goals first
    | exact Except.noConfusion h
    | (cases Except.ok.inj h; rfl)

/-- When the provider response carries a `usage` key, a successful text
completion forwards its value verbatim. -/
theorem complete_text_body_usage_verbatim (prompt model mt : Json)
    (status : Nat) (body : List (String × Json)) (u d : Json)
    (h : complete_text_body prompt model mt (.ok ⟨status, .ok (.obj body)⟩) = .ok d)
    (husage : body.lookup "usage" = some u) :
    d.field "usage" = some u := by
  unfold complete_text_body at h
  simp only [bind, Except.bind, pure, Except.pure, Json.get, husage, Option.getD] at h
  repeat' split at h
  all_goals first
    | exact Except.noConfusion h
    | (cases Except.ok.inj h; rfl)

/-- A 2xx response whose `choices` is the empty list makes
`complete_text` raise `IndexError`, which the inner handler (tuned to
`RequestException` only) does not catch. -/
theorem complete_text_empty_choices (prompt model mt : Json) (status : Nat)
    (body : List (String × Json)) (hok : ¬(400 ≤ status ∧ status < 600))
    (h : body.lookup "choices" = some (.arr [])) :
    complete_text prompt model mt (.ok ⟨status, .ok (.obj body)⟩) =
      .error (.otherExc "list index out of range") := by
  have hbody : complete_text_body prompt model mt (.ok ⟨status, .ok (.obj body)⟩) =
      .error (.otherExc "list index out of range") := by
    simp only [complete_text_body, bind, Except.bind, pure, Except.pure,
      httpRaise, if_neg hok, Json.get, h, Option.getD, pyIndex, List.get?]
  simp [complete_text, hbody]

/-! ## Claim theorems -/

/-- C1: every invocation of either adapter emits a result envelope whose
`provider` field is the adapter's fixed identifier —
`example_community` resp. `pollinations` — in the Success and the
Failure variant alike (i.e. for every stdin-parse outcome and every
network outcome). -/
theorem provider_field_is_fixed (input : Except PyExc Json) (net : NetEnv) :
    (ex_main input).output.field "provider" = some (.str "example_community") ∧
    (pol_main input net).output.field "provider" = some (.str "pollinations") := by
  constructor
  · unfold ex_main
    rcases h : ex_main_body input with e | r
    · rfl
    · obtain ⟨d, rfl⟩ := ex_main_body_ok_shape input r h
      rfl
  · unfold pol_main
    rcases h : pol_main_body input net with e | r
    · rfl
    · obtain ⟨d, rfl⟩ := pol_main_body_ok_shape input net r h
      rfl

/-- C2: whenever any step of an invocation (stdin parsing, parameter
extraction, dispatch, or the provider call) raises, the adapter emits
exactly the Failure envelope — `success=false`, `error` carrying the
exception's message, `provider` the fixed identifier — and exits with
code 1; a Failure envelope has no `data` and no `cost` field.  On
success the adapter emits the Success envelope produced by the `try`
body and exits with code 0. -/
theorem failure_success_envelopes (input : Except PyExc Json) (net : NetEnv) :
    (∀ e, ex_main_body input = .error e →
      ex_main input = ⟨.obj [("success", .bool false), ("error", .str e.msg),
        ("provider", .str "example_community")], 1⟩) ∧
    (∀ r, ex_main_body input = .ok r → ex_main input = ⟨r, 0⟩) ∧
    (∀ e, pol_main_body input net = .error e →
      pol_main input net = ⟨.obj [("success", .bool false), ("error", .str e.msg),
        ("provider", .str "pollinations")], 1⟩) ∧
    (∀ r, pol_main_body input net = .ok r → pol_main input net = ⟨r, 0⟩) ∧
    (∀ m, (Json.obj [("success", .bool false), ("error", .str m),
        ("provider", .str "example_community")]).field "data" = none ∧
      (Json.obj [("success", .bool false), ("error", .str m),
        ("provider", .str "example_community")]).field "cost" = none ∧
      (Json.obj [("success", .bool false), ("error", .str m),
        ("provider", .str "pollinations")]).field "data" = none ∧
      (Json.obj [("success", .bool false), ("error", .str m),
        ("provider", .str "pollinations")]).field "cost" = none) := by
  refine ⟨fun e h => ?_, fun r h => ?_, fun e h => ?_, fun r h => ?_,
    fun m => ⟨rfl, rfl, rfl, rfl⟩⟩
  · unfold ex_main; rw [h]
  · unfold ex_main; rw [h]
  · unfold pol_main; rw [h]
  · unfold pol_main; rw [h]

/-- Witness for C2: a malformed-input run of each adapter yields the
concrete Failure envelope with exit code 1, and a successful run of
each (empty request object; for `pollinations` a 200 response with
empty JSON body) yields the concrete Success envelope with exit
code 0. -/
theorem failure_success_envelopes_witness :
    ex_main (.error (.otherExc "Expecting value: line 1 column 1 (char 0)")) =
      ⟨.obj [("success", .bool false),
        ("error", .str "Expecting value: line 1 column 1 (char 0)"),
        ("provider", .str "example_community")], 1⟩ ∧
    ex_main (.ok (.obj [])) =
      ⟨.obj [("success", .bool true),
        ("data", .obj [("text", .str "Community API response to: "), ("model", .str "default"),
          ("usage", .obj [("prompt_tokens", .num 0), ("completion_tokens", .num 20),
            ("total_tokens", .num 20)])]),
        ("cost", .num (0.001 : Rat)), ("provider", .str "example_community")], 0⟩ ∧
    pol_main (.error (.otherExc "boom")) ⟨.error "net down", .error "net down"⟩ =
      ⟨.obj [("success", .bool false), ("error", .str "boom"),
        ("provider", .str "pollinations")], 1⟩ ∧
    pol_main (.ok (.obj [])) ⟨.ok ⟨200, .ok (.obj [])⟩, .error "unused"⟩ =
      ⟨.obj [("success", .bool true),
        ("data", .obj [("text", .str ""), ("model", .str "openai"),
          ("usage", .obj [("prompt_tokens", .num 0), ("completion_tokens", .num 100),
            ("total_tokens", .num 100)])]),
        ("cost", .num 0), ("provider", .str "pollinations")], 0⟩ := by
  refine ⟨(failure_success_envelopes
      (.error (.otherExc "Expecting value: line 1 column 1 (char 0)"))
      ⟨.error "x", .error "x"⟩).1 _ rfl,
    (failure_success_envelopes (.ok (.obj [])) ⟨.error "x", .error "x"⟩).2.1 _ ?_,
    (failure_success_envelopes (.error (.otherExc "boom"))
      ⟨.error "net down", .error "net down"⟩).2.2.1 _ rfl,
    (failure_success_envelopes (.ok (.obj []))
      ⟨.ok ⟨200, .ok (.obj [])⟩, .error "unused"⟩).2.2.2.1 _ ?_⟩
  · norm_num [ex_main_body, call_community_api, call_community_api_body, pySplitJson, pySplit,
      pySplitAux, pyMin, pyAdd, Json.toRatNum, pyStr, Json.get, bind, Except.bind, pure, Except.pure]
  · norm_num [pol_main_body, complete_text, complete_text_body, isImageGeneration, pySplitJson,
      pySplit, pySplitAux, pyAdd, Json.toRatNum, pyIndex, httpRaise, Json.get,
      bind, Except.bind, pure, Except.pure]
    exact fun h => absurd h (by decide)

/-- C3 (counterexample): the claim "completion_tokens equals the
requested max_tokens" fails on the mock adapter at the concrete request
with prompt `hello world` and `max_tokens` 50: the emitted
`data.usage.completion_tokens` is 20 (the mock caps the estimate with
`min(max_tokens, 20)`), not 50. -/
theorem mock_completion_cap_cex :
    ((((ex_main (.ok (.obj [("prompt", .str "hello world"), ("model", .str "default"),
        ("max_tokens", .num 50)]))).output.field "data").bind
      (fun d => d.field "usage")).bind (fun u => u.field "completion_tokens"))
      = some (.num 20) ∧
    some (Json.num 20) ≠ some (Json.num 50) := by
  constructor
  · have hs : pySplitJson (.str "hello world") = .ok ["hello", "world"] := rfl
    have h : ex_main_body (.ok (.obj [("prompt", .str "hello world"), ("model", .str "default"),
        ("max_tokens", .num 50)])) =
        .ok (.obj [("success", .bool true),
          ("data", .obj [("text", .str "Community API response to: hello world"),
            ("model", .str "default"),
            ("usage", .obj [("prompt_tokens", .num 2), ("completion_tokens", .num 20),
              ("total_tokens", .num 22)])]),
          ("cost", .num (0.001 : Rat)), ("provider", .str "example_community")]) := by
      simp only [ex_main_body, bind, Except.bind]
      simp [Json.get, List.lookup]
      norm_num [call_community_api, call_community_api_body, hs,
        pyMin, pyAdd, Json.toRatNum, pyStr, bind, Except.bind, pure, Except.pure]
      rfl
    unfold ex_main
    rw [h]
    rfl
  · simp

/-- C3 (amended): for every string prompt and rational `max_tokens`, the
mock provider call of `example_community.py` succeeds with
`prompt_tokens` the whitespace token count of the prompt,
`completion_tokens` equal to `min(max_tokens, 20)` — the requested
`max_tokens` capped at 20 — and `total_tokens` their sum. -/
theorem mock_usage_estimate (p : String) (model : Json) (t : Rat) :
    call_community_api (.str p) model (.num t) =
      .ok (.obj [("text", .str ("Community API response to: " ++ p)), ("model", model),
        ("usage", .obj [("prompt_tokens", .num ((pySplit p).length : Rat)),
          ("completion_tokens", .num (min t 20)),
          ("total_tokens", .num (((pySplit p).length : Rat) + min t 20))])]) :=
  call_community_api_run p model t

/-- C4: on the concrete request with prompt `hello world`, model
`default` and `max_tokens` 5, the mock adapter emits the Success
envelope whose `data.text` is `Community API response to: hello world`
and whose usage counts are 2, 5 and 7, with exit code 0. -/
theorem mock_hello_world_run :
    ex_main (.ok (.obj [("prompt", .str "hello world"), ("model", .str "default"),
        ("max_tokens", .num 5)])) =
      ⟨.obj [("success", .bool true),
        ("data", .obj [("text", .str "Community API response to: hello world"),
          ("model", .str "default"),
          ("usage", .obj [("prompt_tokens", .num 2), ("completion_tokens", .num 5),
            ("total_tokens", .num 7)])]),
        ("cost", .num (0.001 : Rat)), ("provider", .str "example_community")], 0⟩ := by
  have hs : pySplitJson (.str "hello world") = .ok ["hello", "world"] := rfl
  have h : ex_main_body (.ok (.obj [("prompt", .str "hello world"), ("model", .str "default"),
      ("max_tokens", .num 5)])) =
      .ok (.obj [("success", .bool true),
        ("data", .obj [("text", .str "Community API response to: hello world"),
          ("model", .str "default"),
          ("usage", .obj [("prompt_tokens", .num 2), ("completion_tokens", .num 5),
            ("total_tokens", .num 7)])]),
        ("cost", .num (0.001 : Rat)), ("provider", .str "example_community")]) := by
    simp only [ex_main_body, bind, Except.bind]
    simp [Json.get, List.lookup]
    norm_num [call_community_api, call_community_api_body, hs,
      pyMin, pyAdd, Json.toRatNum, pyStr, bind, Except.bind, pure, Except.pure]
    rfl
  unfold ex_main
  rw [h]

/-- C6: for every request object, `pollinations.py` selects exactly one
provider operation by `task_type`: the run is the image-generation
operation when the extracted `task_type` compares equal to
`image_generation` — which happens exactly for that string value — and
the text-completion operation otherwise, including when the field is
absent (the default `chat_completion` is substituted). -/
theorem task_type_dispatch (kvs : List (String × Json)) (net : NetEnv) :
    (pol_main_body (.ok (.obj kvs)) net =
      Except.map (fun resp => .obj [("success", .bool true), ("data", resp),
          ("cost", .num 0), ("provider", .str "pollinations")])
        (if isImageGeneration ((kvs.lookup "task_type").getD (.str "chat_completion")) then
          generate_image ((kvs.lookup "prompt").getD (.str ""))
            ((kvs.lookup "model").getD (.str "openai")) net.imageHead
        else
          complete_text ((kvs.lookup "prompt").getD (.str ""))
            ((kvs.lookup "model").getD (.str "openai"))
            ((kvs.lookup "max_tokens").getD (.num 100)) net.textResp)) ∧
    (∀ v, isImageGeneration v = true ↔ v = .str "image_generation") ∧
    (kvs.lookup "task_type" = none →
      pol_main_body (.ok (.obj kvs)) net =
        Except.map (fun resp => .obj [("success", .bool true), ("data", resp),
            ("cost", .num 0), ("provider", .str "pollinations")])
          (complete_text ((kvs.lookup "prompt").getD (.str ""))
            ((kvs.lookup "model").getD (.str "openai"))
            ((kvs.lookup "max_tokens").getD (.num 100)) net.textResp)) := by
  refine ⟨?_, ?_, ?_⟩
  · simp only [pol_main_body, bind, exBindOk, Json.get, pure, Except.pure]
    split
    · exact bindPureMap _ _
    · exact bindPureMap _ _
  · intro v
    cases v <;> simp [isImageGeneration]
  · intro h
    simp only [pol_main_body, bind, exBindOk, Json.get, pure, Except.pure, h, Option.getD]
    rw [if_neg (by simp [isImageGeneration])]
    exact bindPureMap _ _

/-- Witness for C6: a request with no `task_type` field runs the
text-completion operation. -/
theorem task_type_dispatch_witness :
    pol_main_body (.ok (.obj [])) ⟨.ok ⟨200, .ok (.obj [])⟩, .error "unused"⟩ =
      Except.map (fun resp => .obj [("success", .bool true), ("data", resp),
          ("cost", .num 0), ("provider", .str "pollinations")])
        (complete_text (.str "") (.str "openai") (.num 100) (.ok ⟨200, .ok (.obj [])⟩)) :=
  (task_type_dispatch [] ⟨.ok ⟨200, .ok (.obj [])⟩, .error "unused"⟩).2.2 rfl

/-- C7: a missing field is replaced by its documented default before
dispatch: extracting `prompt` from an object lacking it yields the
empty string, `model` yields `default` (example_community) resp.
`openai` (pollinations), `max_tokens` yields 100; and the whole run is
the same as if the field were present with exactly that default
value. -/
theorem missing_field_defaults (kvs : List (String × Json)) (net : NetEnv) :
    (kvs.lookup "prompt" = none →
      (Json.obj kvs).get "prompt" (.str "") = .ok (.str "") ∧
      ex_main_body (.ok (.obj kvs)) = ex_main_body (.ok (.obj (("prompt", .str "") :: kvs))) ∧
      pol_main_body (.ok (.obj kvs)) net =
        pol_main_body (.ok (.obj (("prompt", .str "") :: kvs))) net) ∧
    (kvs.lookup "model" = none →
      (Json.obj kvs).get "model" (.str "default") = .ok (.str "default") ∧
      (Json.obj kvs).get "model" (.str "openai") = .ok (.str "openai") ∧
      ex_main_body (.ok (.obj kvs)) = ex_main_body (.ok (.obj (("model", .str "default") :: kvs))) ∧
      pol_main_body (.ok (.obj kvs)) net =
        pol_main_body (.ok (.obj (("model", .str "openai") :: kvs))) net) ∧
    (kvs.lookup "max_tokens" = none →
      (Json.obj kvs).get "max_tokens" (.num 100) = .ok (.num 100) ∧
      ex_main_body (.ok (.obj kvs)) = ex_main_body (.ok (.obj (("max_tokens", .num 100) :: kvs))) ∧
      pol_main_body (.ok (.obj kvs)) net =
        pol_main_body (.ok (.obj (("max_tokens", .num 100) :: kvs))) net) := by
  refine ⟨fun h => ⟨?_, ?_, ?_⟩, fun h => ⟨?_, ?_, ?_, ?_⟩, fun h => ⟨?_, ?_, ?_⟩⟩
  all_goals simp only [ex_main_body, pol_main_body, bind, exBindOk, Json.get, pure, Except.pure]
  all_goals simp [List.lookup, h]

/-- Witness for C7: on the empty request object every default is
substituted, and the runs agree with the explicit-default runs. -/
theorem missing_field_defaults_witness :
    (Json.obj []).get "prompt" (.str "") = .ok (.str "") ∧
    ex_main_body (.ok (.obj [])) = ex_main_body (.ok (.obj [("prompt", .str "")])) ∧
    (Json.obj []).get "model" (.str "default") = .ok (.str "default") ∧
    pol_main_body (.ok (.obj [])) ⟨.error "down", .error "down"⟩ =
      pol_main_body (.ok (.obj [("model", .str "openai")])) ⟨.error "down", .error "down"⟩ ∧
    (Json.obj []).get "max_tokens" (.num 100) = .ok (.num 100) ∧
    ex_main_body (.ok (.obj [])) = ex_main_body (.ok (.obj [("max_tokens", .num 100)])) :=
  ⟨((missing_field_defaults [] ⟨.error "down", .error "down"⟩).1 rfl).1,
    ((missing_field_defaults [] ⟨.error "down", .error "down"⟩).1 rfl).2.1,
    ((missing_field_defaults [] ⟨.error "down", .error "down"⟩).2.1 rfl).1,
    ((missing_field_defaults [] ⟨.error "down", .error "down"⟩).2.1 rfl).2.2.2,
    ((missing_field_defaults [] ⟨.error "down", .error "down"⟩).2.2 rfl).1,
    ((missing_field_defaults [] ⟨.error "down", .error "down"⟩).2.2 rfl).2.1⟩

/-- C9: `example_community.py` ignores `task_type` entirely: adding any
`task_type` binding — in particular `image_generation` — to a request
leaves the whole run unchanged, and every successful mock provider call
returns a text payload (it has a `text` field and neither `url` nor
`size`), never an image descriptor. -/
theorem ex_ignores_task_type (kvs : List (String × Json)) (v : Json) :
    ex_main (.ok (.obj (("task_type", v) :: kvs))) = ex_main (.ok (.obj kvs)) ∧
    (∀ p m t d, call_community_api p m t = .ok d →
      (∃ s, d.field "text" = some (.str s)) ∧ d.field "url" = none ∧ d.field "size" = none) := by
  constructor
  · have hbody : ex_main_body (.ok (.obj (("task_type", v) :: kvs))) =
        ex_main_body (.ok (.obj kvs)) := by
      simp only [ex_main_body, bind, exBindOk, Json.get]
      simp [List.lookup]
    unfold ex_main
    rw [hbody]
  · intro p m t d h
    unfold call_community_api call_community_api_body at h
    simp only [bind, Except.bind, pure, Except.pure] at h
    repeat' split at h
    all_goals first
      | exact Except.noConfusion h
      | (cases Except.ok.inj h; exact ⟨⟨_, rfl⟩, rfl, rfl⟩)

/-- Witness for C9: a request carrying `task_type` `image_generation`
runs exactly as the same request without it, and a concrete successful
mock call yields a text payload with no `url` or `size`. -/
theorem ex_ignores_task_type_witness :
    ex_main (.ok (.obj [("task_type", .str "image_generation"), ("prompt", .str "hi")])) =
      ex_main (.ok (.obj [("prompt", .str "hi")])) ∧
    ((∃ s, (Json.obj [("text", .str "Community API response to: "), ("model", .str "default"),
        ("usage", .obj [("prompt_tokens", .num 0), ("completion_tokens", .num 20),
          ("total_tokens", .num 20)])]).field "text" = some (.str s)) ∧
      (Json.obj [("text", .str "Community API response to: "), ("model", .str "default"),
        ("usage", .obj [("prompt_tokens", .num 0), ("completion_tokens", .num 20),
          ("total_tokens", .num 20)])]).field "url" = none ∧
      (Json.obj [("text", .str "Community API response to: "), ("model", .str "default"),
        ("usage", .obj [("prompt_tokens", .num 0), ("completion_tokens", .num 20),
          ("total_tokens", .num 20)])]).field "size" = none) :=
  ⟨(ex_ignores_task_type [("prompt", .str "hi")] (.str "image_generation")).1,
    (ex_ignores_task_type [] .null).2 (.str "") (.str "default") (.num 100) _
      (by norm_num [call_community_api, call_community_api_body, pySplitJson, pySplit,
        pySplitAux, pyMin, pyAdd, Json.toRatNum, pyStr, bind, Except.bind, pure, Except.pure])⟩

/-- C5 (counterexample): the claim that every Success payload's usage
object contains all three fields fails when the provider reports a
usage object lacking them: with a 200 response whose `usage` is the
empty object, the invocation succeeds and forwards that empty object,
which has none of `prompt_tokens`, `completion_tokens`,
`total_tokens`. -/
theorem usage_passthrough_cex :
    pol_main (.ok (.obj [("prompt", .str "x")]))
        ⟨.ok ⟨200, .ok (.obj [("choices", .arr [.obj [("message",
            .obj [("content", .str "hi")])]]), ("usage", .obj [])])⟩, .error "unused"⟩ =
      ⟨.obj [("success", .bool true),
        ("data", .obj [("text", .str "hi"), ("model", .str "openai"), ("usage", .obj [])]),
        ("cost", .num 0), ("provider", .str "pollinations")], 0⟩ ∧
    (Json.obj []).field "prompt_tokens" = none ∧
    (Json.obj []).field "completion_tokens" = none ∧
    (Json.obj []).field "total_tokens" = none := by
  refine ⟨?_, rfl, rfl, rfl⟩
  have hs : pySplitJson (.str "x") = .ok ["x"] := rfl
  have hbody : complete_text_body (.str "x") (.str "openai") (.num 100)
      (.ok ⟨200, .ok (.obj [("choices", .arr [.obj [("message",
        .obj [("content", .str "hi")])]]), ("usage", .obj [])])⟩) =
      .ok (.obj [("text", .str "hi"), ("model", .str "openai"), ("usage", .obj [])]) := by
    simp only [complete_text_body, bind, Except.bind, pure, Except.pure, httpRaise]
    simp [Json.get, List.lookup, pyIndex, List.get?, hs, pyAdd, Json.toRatNum]
  have hct : complete_text (.str "x") (.str "openai") (.num 100)
      (.ok ⟨200, .ok (.obj [("choices", .arr [.obj [("message",
        .obj [("content", .str "hi")])]]), ("usage", .obj [])])⟩) =
      .ok (.obj [("text", .str "hi"), ("model", .str "openai"), ("usage", .obj [])]) := by
    simp [complete_text, hbody]
  have hpb : pol_main_body (.ok (.obj [("prompt", .str "x")]))
      ⟨.ok ⟨200, .ok (.obj [("choices", .arr [.obj [("message",
        .obj [("content", .str "hi")])]]), ("usage", .obj [])])⟩, .error "unused"⟩ =
      .ok (.obj [("success", .bool true),
        ("data", .obj [("text", .str "hi"), ("model", .str "openai"), ("usage", .obj [])]),
        ("cost", .num 0), ("provider", .str "pollinations")]) := by
    simp only [pol_main_body, bind, exBindOk, Json.get, pure, Except.pure]
    simp [List.lookup]
    rw [if_neg (by simp [isImageGeneration])]
    rw [hct]
    rfl
  unfold pol_main
  rw [hpb]

/-- C5 (amended): every successful text completion's payload has a
`text`/`model`/`usage` shape, so `usage` is always present.  When it is
estimated — the mock always estimates; `pollinations.py` estimates
exactly when the provider response has no `usage` key — it contains all
three fields: `prompt_tokens` the whitespace token count of the prompt,
`completion_tokens` equal to `min(max_tokens, 20)` (mock; at most
`max_tokens`) resp. `max_tokens` itself (pollinations), and
`total_tokens` their sum.  When the provider reports `usage`,
`pollinations.py` forwards it verbatim, so the three fields are present
only if the provider included them. -/
theorem text_usage_accounting :
    (∀ (p : String) (model : Json) (t : Rat), ∃ d,
      call_community_api (.str p) model (.num t) = .ok d ∧
      d.field "usage" = some (.obj [("prompt_tokens", .num ((pySplit p).length : Rat)),
        ("completion_tokens", .num (min t 20)),
        ("total_tokens", .num (((pySplit p).length : Rat) + min t 20))]) ∧
      min t 20 ≤ t) ∧
    (∀ (prompt model mt : Json) (net : Except String HttpResponse) (d : Json),
      complete_text prompt model mt net = .ok d →
      ∃ c u, d = .obj [("text", c), ("model", model), ("usage", u)]) ∧
    (∀ (p : String) (model : Json) (t : Rat) (status : Nat)
        (body : List (String × Json)) (d : Json),
      complete_text (.str p) model (.num t) (.ok ⟨status, .ok (.obj body)⟩) = .ok d →
      body.lookup "usage" = none →
      d.field "usage" = some (.obj [("prompt_tokens", .num ((pySplit p).length : Rat)),
        ("completion_tokens", .num t),
        ("total_tokens", .num (((pySplit p).length : Rat) + t))])) ∧
    (∀ (prompt model mt : Json) (status : Nat) (body : List (String × Json)) (u d : Json),
      complete_text prompt model mt (.ok ⟨status, .ok (.obj body)⟩) = .ok d →
      body.lookup "usage" = some u →
      d.field "usage" = some u) :=
  ⟨fun p model t => ⟨_, call_community_api_run p model t, rfl, min_le_left t 20⟩,
    fun prompt model mt net d h =>
      complete_text_body_shape prompt model mt net d ((complete_text_ok_iff _ _ _ _ _).mp h),
    fun p model t status body d h hu =>
      complete_text_body_usage_est p model t status body d
        ((complete_text_ok_iff _ _ _ _ _).mp h) hu,
    fun prompt model mt status body u d h hu =>
      complete_text_body_usage_verbatim prompt model mt status body u d
        ((complete_text_ok_iff _ _ _ _ _).mp h) hu⟩

/-- Witness for C5 (amended): a concrete successful completion without
provider usage has the full estimated usage object, and one with a
partial provider usage object forwards it verbatim. -/
theorem text_usage_accounting_witness :
    (∃ c u, (Json.obj [("text", .str ""), ("model", .str "openai"),
        ("usage", .obj [("prompt_tokens", .num ((pySplit "x").length : Rat)),
          ("completion_tokens", .num 5),
          ("total_tokens", .num (((pySplit "x").length : Rat) + 5))])]) =
      .obj [("text", c), ("model", Json.str "openai"), ("usage", u)]) ∧
    (Json.obj [("text", .str ""), ("model", .str "openai"),
        ("usage", .obj [("prompt_tokens", .num ((pySplit "x").length : Rat)),
          ("completion_tokens", .num 5),
          ("total_tokens", .num (((pySplit "x").length : Rat) + 5))])]).field "usage" =
      some (.obj [("prompt_tokens", .num ((pySplit "x").length : Rat)),
        ("completion_tokens", .num 5),
        ("total_tokens", .num (((pySplit "x").length : Rat) + 5))]) ∧
    (Json.obj [("text", .str ""), ("model", .str "openai"),
        ("usage", .obj [("total_tokens", .num 3)])]).field "usage" =
      some (.obj [("total_tokens", .num 3)]) := by
  have hs : pySplitJson (.str "x") = .ok ["x"] := rfl
  have hl : pySplit "x" = ["x"] := rfl
  have h1 : complete_text (.str "x") (.str "openai") (.num 5) (.ok ⟨200, .ok (.obj [])⟩) =
      .ok (.obj [("text", .str ""), ("model", .str "openai"),
        ("usage", .obj [("prompt_tokens", .num ((pySplit "x").length : Rat)),
          ("completion_tokens", .num 5),
          ("total_tokens", .num (((pySplit "x").length : Rat) + 5))])]) := by
    have hbody : complete_text_body (.str "x") (.str "openai") (.num 5)
        (.ok ⟨200, .ok (.obj [])⟩) =
        .ok (.obj [("text", .str ""), ("model", .str "openai"),
          ("usage", .obj [("prompt_tokens", .num ((pySplit "x").length : Rat)),
            ("completion_tokens", .num 5),
            ("total_tokens", .num (((pySplit "x").length : Rat) + 5))])]) := by
      simp only [complete_text_body, bind, Except.bind, pure, Except.pure, httpRaise]
      simp [Json.get, List.lookup, pyIndex, List.get?, hs, hl, pyAdd, Json.toRatNum]
    simp [complete_text, hbody]
  have h2 : complete_text (.str "x") (.str "openai") (.num 5)
      (.ok ⟨200, .ok (.obj [("usage", .obj [("total_tokens", .num 3)])])⟩) =
      .ok (.obj [("text", .str ""), ("model", .str "openai"),
        ("usage", .obj [("total_tokens", .num 3)])]) := by
    have hbody : complete_text_body (.str "x") (.str "openai") (.num 5)
        (.ok ⟨200, .ok (.obj [("usage", .obj [("total_tokens", .num 3)])])⟩) =
        .ok (.obj [("text", .str ""), ("model", .str "openai"),
          ("usage", .obj [("total_tokens", .num 3)])]) := by
      simp only [complete_text_body, bind, Except.bind, pure, Except.pure, httpRaise]
      simp [Json.get, List.lookup, pyIndex, List.get?, hs, pyAdd, Json.toRatNum]
    simp [complete_text, hbody]
  exact ⟨text_usage_accounting.2.1 (.str "x") (.str "openai") (.num 5)
      (.ok ⟨200, .ok (.obj [])⟩) _ h1,
    text_usage_accounting.2.2.1 "x" (.str "openai") 5 200 [] _ h1 rfl,
    text_usage_accounting.2.2.2 (.str "x") (.str "openai") (.num 5) 200
      [("usage", .obj [("total_tokens", .num 3)])] (.obj [("total_tokens", .num 3)]) _ h2 rfl⟩

/-- C8: an image-generation call of `pollinations.py` whose
reachability HEAD check passes (status outside 400–599) returns the
descriptor whose `url` is the image endpoint with the URL-escaped
prompt appended — so the url contains the escaped prompt — whose
`prompt` is the original prompt, whose `model` is the fixed tag
`pollinations-image`, and whose `size` is `1024x1024`. -/
theorem image_descriptor (p : String) (model : Json) (status : Nat)
    (h : ¬(400 ≤ status ∧ status < 600)) :
    generate_image (.str p) model (.ok status) =
      .ok (.obj [("url", .str ("https://image.pollinations.ai/prompt/" ++ pyQuote p)),
        ("prompt", .str p), ("model", .str "pollinations-image"),
        ("size", .str "1024x1024")]) ∧
    (∃ pre suf, "https://image.pollinations.ai/prompt/" ++ pyQuote p =
      pre ++ pyQuote p ++ suf) := by
  constructor
  · simp only [generate_image, bind, Except.bind, pure, Except.pure, httpRaise, if_neg h]
  · exact ⟨"https://image.pollinations.ai/prompt/", "", by simp⟩

/-- Witness for C8: the prompt `a cat` with a 200 HEAD response yields
the concrete descriptor with the percent-escaped prompt in the URL. -/
theorem image_descriptor_witness :
    generate_image (.str "a cat") (.str "openai") (.ok 200) =
      .ok (.obj [("url", .str "https://image.pollinations.ai/prompt/a%20cat"),
        ("prompt", .str "a cat"), ("model", .str "pollinations-image"),
        ("size", .str "1024x1024")]) :=
  (image_descriptor "a cat" (.str "openai") 200 (by decide)).1

/-- C10: on a 2xx text response, a JSON body without a `choices` key
yields a Success payload whose `text` is the empty string, whereas a
body whose `choices` is the empty list raises `IndexError` — uncaught
by the inner `RequestException` handler — so the whole invocation
emits the Failure envelope carrying that message and exits with
code 1. -/
theorem choices_missing_vs_empty (p : String) (model mt : Json) (t : Rat) (status : Nat)
    (body : List (String × Json)) (net2 : Except String Nat)
    (hok : ¬(400 ≤ status ∧ status < 600)) :
    (body.lookup "choices" = none →
      ∃ u, complete_text (.str p) model (.num t) (.ok ⟨status, .ok (.obj body)⟩) =
        .ok (.obj [("text", .str ""), ("model", model), ("usage", u)])) ∧
    (body.lookup "choices" = some (.arr []) →
      complete_text (.str p) model mt (.ok ⟨status, .ok (.obj body)⟩) =
        .error (.otherExc "list index out of range")) ∧
    (∀ kvs : List (String × Json), kvs.lookup "task_type" = none →
      body.lookup "choices" = some (.arr []) →
      pol_main (.ok (.obj kvs)) ⟨.ok ⟨status, .ok (.obj body)⟩, net2⟩ =
        ⟨.obj [("success", .bool false), ("error", .str "list index out of range"),
          ("provider", .str "pollinations")], 1⟩) := by
  refine ⟨fun h => ?_, fun h => complete_text_empty_choices _ _ _ _ _ hok h,
    fun kvs htt h => ?_⟩
  · have hbody : complete_text_body (.str p) model (.num t)
        (.ok ⟨status, .ok (.obj body)⟩) =
        .ok (.obj [("text", .str ""), ("model", model),
          ("usage", (body.lookup "usage").getD
            (.obj [("prompt_tokens", .num ((pySplit p).length : Rat)),
              ("completion_tokens", .num t),
              ("total_tokens", .num (((pySplit p).length : Rat) + t))]))]) := by
      simp only [complete_text_body, bind, Except.bind, pure, Except.pure,
        httpRaise, if_neg hok, Json.get, h, Option.getD, pyIndex, List.get?,
        pySplitJson, pyAdd, Json.toRatNum, List.lookup_nil]
    refine ⟨(body.lookup "usage").getD
      (.obj [("prompt_tokens", .num ((pySplit p).length : Rat)),
        ("completion_tokens", .num t),
        ("total_tokens", .num (((pySplit p).length : Rat) + t))]), ?_⟩
    simp [complete_text, hbody]
  · have hct := complete_text_empty_choices
      ((kvs.lookup "prompt").getD (.str ""))
      ((kvs.lookup "model").getD (.str "openai"))
      ((kvs.lookup "max_tokens").getD (.num 100)) status body hok h
    have hpb : pol_main_body (.ok (.obj kvs)) ⟨.ok ⟨status, .ok (.obj body)⟩, net2⟩ =
        .error (.otherExc "list index out of range") := by
      simp only [pol_main_body, bind, exBindOk, Json.get, pure, Except.pure, htt,
        Option.getD_none]
      rw [if_neg (by simp [isImageGeneration]), hct]
      rfl
    unfold pol_main
    rw [hpb]
    rfl

/-- Witness for C10: concrete 200-status runs — an empty response body
yields text-completion Success, the body with `choices` the empty list
makes `complete_text` raise, and the full invocation on it prints the
concrete Failure envelope and exits 1. -/
theorem choices_missing_vs_empty_witness :
    (∃ u, complete_text (.str "x") (.str "openai") (.num 5)
        (.ok ⟨200, .ok (.obj [])⟩) =
      .ok (.obj [("text", .str ""), ("model", .str "openai"), ("usage", u)])) ∧
    complete_text (.str "x") (.str "openai") (.num 5)
        (.ok ⟨200, .ok (.obj [("choices", .arr [])])⟩) =
      .error (.otherExc "list index out of range") ∧
    pol_main (.ok (.obj []))
        ⟨.ok ⟨200, .ok (.obj [("choices", .arr [])])⟩, .error "unused"⟩ =
      ⟨.obj [("success", .bool false), ("error", .str "list index out of range"),
        ("provider", .str "pollinations")], 1⟩ :=
  ⟨(choices_missing_vs_empty "x" (.str "openai") (.num 5) 5 200 []
      (.error "unused") (by decide)).1 rfl,
    (choices_missing_vs_empty "x" (.str "openai") (.num 5) 5 200 [("choices", .arr [])]
      (.error "unused") (by decide)).2.1 rfl,
    (choices_missing_vs_empty "x" (.str "openai") (.num 5) 5 200 [("choices", .arr [])]
      (.error "unused") (by decide)).2.2 [] rfl rfl⟩

end PalMoE
